import Mathlib

/-!
Verification of the whisper_subs VLC plugin (src/modules/whisper_subs/whisper_subs.cpp).

The development shallowly embeds the plugin's state-manipulating functions:
ProcessAudio (the audio-filter tap that feeds the PCM buffer), the drain /
inference / publish steps of WhisperWorker, the display gate of FilterRender,
and the teardown sequence of CloseAudio.  Samples are modelled as integers
(their float values are never interpreted), the PCM buffer as a Lean list,
mtime_t as Int (microseconds), and strings as Lean strings.
-/

namespace WhisperSubs

/-- VLC fourcc for 32-bit float PCM, VLC_CODEC_FL32 = fourcc "f l 3 2". -/
def VLC_CODEC_FL32 : Nat := 102 + 108 * 256 + 51 * 65536 + 50 * 16777216

/-- The buffer cap used by ProcessAudio: 16000 * 10 samples (10 s at 16 kHz). -/
def BUFFER_CAP : Nat := 16000 * 10

/-- The worker's window size: CHUNK_SAMPLES = 16000 * 3 (3 s at 16 kHz). -/
def CHUNK_SAMPLES : Nat := 16000 * 3

/-- VLC clock frequency: mtime_t counts microseconds. -/
def CLOCK_FREQ : Int := 1000000

/-- The fields of filter->fmt_in that ProcessAudio reads. -/
structure AudioFormat where
  i_codec : Nat
  i_channels : Nat
  deriving DecidableEq

/-- An incoming audio block: sample count and the interleaved sample words. -/
structure Block where
  i_nb_samples : Nat
  p_buffer : List Int
  deriving DecidableEq

/-- The mono sequence ProcessAudio extracts from a block: for each frame i
it takes the interleaved word at index i * ch (channel 0). -/
def monoSamples (ch : Nat) (blk : Block) : List Int :=
  (List.range blk.i_nb_samples).map (fun i => blk.p_buffer.getD (i * ch) 0)

/-- ProcessAudio, lines 166-194 of the source.  Returns the (unchanged) block
together with the new pcm_buffer contents.  Non-FL32 input, zero channels or
zero samples leave the buffer alone; otherwise, if the buffer already holds
more than BUFFER_CAP samples, i_nb_samples entries are erased from its head,
and then the mono samples are appended at the tail. -/
def processAudio (fmt : AudioFormat) (blk : Block) (buf : List Int) :
    Block × List Int :=
  if fmt.i_codec ≠ VLC_CODEC_FL32 then (blk, buf)
  else if fmt.i_channels = 0 ∨ blk.i_nb_samples = 0 then (blk, buf)
  else
    let evicted := if BUFFER_CAP < buf.length then buf.drop blk.i_nb_samples else buf
    (blk, evicted ++ monoSamples fmt.i_channels blk)

/-- The drain step at the top of the WhisperWorker loop, lines 204-210: if the
buffer holds at least CHUNK_SAMPLES samples the first CHUNK_SAMPLES are copied
out and erased from the head; otherwise the window is empty and the buffer is
untouched.  Returns (window, remaining buffer). -/
def drainWindow (buf : List Int) : List Int × List Int :=
  if CHUNK_SAMPLES ≤ buf.length then (buf.take CHUNK_SAMPLES, buf.drop CHUNK_SAMPLES)
  else ([], buf)

lemma monoSamples_length (ch : Nat) (blk : Block) :
    (monoSamples ch blk).length = blk.i_nb_samples := by
  simp [monoSamples]

/-- C10: for every incoming block whose codec is not VLC_CODEC_FL32,
ProcessAudio returns the block unchanged and appends nothing to the buffer. -/
theorem C10_nonFL32_passthrough (fmt : AudioFormat) (blk : Block) (buf : List Int)
    (h : fmt.i_codec ≠ VLC_CODEC_FL32) :
    processAudio fmt blk buf = (blk, buf) := by
  simp [processAudio, h]

/-- Witness for C10 at a concrete non-FL32 codec. -/
theorem C10_witness :
    (0 : Nat) ≠ VLC_CODEC_FL32 ∧
    processAudio ⟨0, 2⟩ ⟨3, [1, 2, 3, 4, 5, 6]⟩ [9] = (⟨3, [1, 2, 3, 4, 5, 6]⟩, [9]) :=
  ⟨by decide, C10_nonFL32_passthrough ⟨0, 2⟩ ⟨3, [1, 2, 3, 4, 5, 6]⟩ [9] (by decide)⟩

/-- C6: ProcessAudio always returns the incoming block itself unmodified; with
zero channels or zero samples it appends nothing; and on the FL32 path with
ch ≠ 0 and n ≠ 0 the buffer's new contents are some retained part of the old
buffer followed by exactly the n samples at interleaved index i * ch, in frame
order. -/
theorem C6_ingest (fmt : AudioFormat) (blk : Block) (buf : List Int) :
    (processAudio fmt blk buf).1 = blk ∧
    (fmt.i_channels = 0 ∨ blk.i_nb_samples = 0 → (processAudio fmt blk buf).2 = buf) ∧
    (fmt.i_codec = VLC_CODEC_FL32 → fmt.i_channels ≠ 0 → blk.i_nb_samples ≠ 0 →
      ∃ retained : List Int,
        (processAudio fmt blk buf).2 =
          retained ++
            (List.range blk.i_nb_samples).map
              (fun i => blk.p_buffer.getD (i * fmt.i_channels) 0)) := by
  by_cases h1 : fmt.i_codec = VLC_CODEC_FL32
  · by_cases h2 : fmt.i_channels = 0 ∨ blk.i_nb_samples = 0
    · refine ⟨by simp [processAudio, h1, h2], fun _ => by simp [processAudio, h1, h2], ?_⟩
      intro _ hc hn
      rcases h2 with h2 | h2
      · exact absurd h2 hc
      · exact absurd h2 hn
    · refine ⟨?_, fun h => absurd h h2, fun _ _ _ => ?_⟩
      · simp [processAudio, h1, h2]
      · exact ⟨if BUFFER_CAP < buf.length then buf.drop blk.i_nb_samples else buf,
          by simp [processAudio, h1, h2, monoSamples]⟩
  · refine ⟨?_, fun _ => ?_, fun hc => absurd hc h1⟩ <;> simp [processAudio, h1]

/-- Witness for C6 on the FL32 path: a stereo block of two frames appends the
two channel-0 words. -/
theorem C6_witness :
    (⟨VLC_CODEC_FL32, 2⟩ : AudioFormat).i_codec = VLC_CODEC_FL32 ∧
    (⟨VLC_CODEC_FL32, 2⟩ : AudioFormat).i_channels ≠ 0 ∧
    (⟨2, [10, 11, 20, 21]⟩ : Block).i_nb_samples ≠ 0 ∧
    (∃ retained : List Int,
      (processAudio ⟨VLC_CODEC_FL32, 2⟩ ⟨2, [10, 11, 20, 21]⟩ [7]).2 =
        retained ++
          (List.range (⟨2, [10, 11, 20, 21]⟩ : Block).i_nb_samples).map
            (fun i => (⟨2, [10, 11, 20, 21]⟩ : Block).p_buffer.getD
              (i * (⟨VLC_CODEC_FL32, 2⟩ : AudioFormat).i_channels) 0)) :=
  ⟨rfl, by decide, by decide,
    (C6_ingest ⟨VLC_CODEC_FL32, 2⟩ ⟨2, [10, 11, 20, 21]⟩ [7]).2.2 rfl (by decide) (by decide)⟩

/-- C7: the worker's drain step is a non-blocking poll: with fewer than
CHUNK_SAMPLES samples it returns an empty window and leaves the buffer
unchanged; with at least CHUNK_SAMPLES it copies out exactly the first
CHUNK_SAMPLES samples in order, removes exactly those from the head, and the
window and remainder together reassemble the original buffer (no reordering or
duplication). -/
theorem C7_drain_poll (buf : List Int) :
    (buf.length < CHUNK_SAMPLES → drainWindow buf = ([], buf)) ∧
    (CHUNK_SAMPLES ≤ buf.length →
      (drainWindow buf).1 = buf.take CHUNK_SAMPLES ∧
      (drainWindow buf).2 = buf.drop CHUNK_SAMPLES ∧
      (drainWindow buf).1 ++ (drainWindow buf).2 = buf ∧
      (drainWindow buf).1.length = CHUNK_SAMPLES) := by
  constructor
  · intro h
    have : ¬ CHUNK_SAMPLES ≤ buf.length := by omega
    simp [drainWindow, this]
  · intro h
    refine ⟨by simp [drainWindow, h], by simp [drainWindow, h], ?_, ?_⟩
    · simp [drainWindow, h, List.take_append_drop]
    · simp [drainWindow, h]

/-- Witness for C7: an empty buffer polls empty, and a 48000-sample buffer
drains its first CHUNK_SAMPLES samples. -/
theorem C7_witness :
    (([] : List Int).length < CHUNK_SAMPLES ∧ drainWindow [] = ([], [])) ∧
    (CHUNK_SAMPLES ≤ (List.replicate 48000 (0 : Int)).length ∧
      (drainWindow (List.replicate 48000 (0 : Int))).1 =
        (List.replicate 48000 (0 : Int)).take CHUNK_SAMPLES ∧
      (drainWindow (List.replicate 48000 (0 : Int))).2 =
        (List.replicate 48000 (0 : Int)).drop CHUNK_SAMPLES) :=
  have hsmall : ([] : List Int).length < CHUNK_SAMPLES := by norm_num [CHUNK_SAMPLES]
  have hbig : CHUNK_SAMPLES ≤ (List.replicate 48000 (0 : Int)).length := by
    rw [List.length_replicate]; norm_num [CHUNK_SAMPLES]
  ⟨⟨hsmall, (C7_drain_poll []).1 hsmall⟩,
   ⟨hbig, ((C7_drain_poll (List.replicate 48000 (0 : Int))).2 hbig).1,
    ((C7_drain_poll (List.replicate 48000 (0 : Int))).2 hbig).2.1⟩⟩

lemma processAudio_append_under_cap (fmt : AudioFormat) (blk : Block)
    (buf : List Int) (h1 : fmt.i_codec = VLC_CODEC_FL32) (h2 : fmt.i_channels ≠ 0)
    (h3 : blk.i_nb_samples ≠ 0) (h4 : ¬ BUFFER_CAP < buf.length) :
    (processAudio fmt blk buf).2 = buf ++ monoSamples fmt.i_channels blk := by
  simp [processAudio, h1, h2, h3, h4]

/-- C1: the claimed bounded-memory invariant fails on the code.  Starting from
an empty buffer, one FL32 mono block of 200000 samples leaves the buffer with
200000 samples, strictly above BUFFER_CAP = 160000: the eviction branch runs
only when the buffer already exceeds the cap before the append, so a single
large block (or any append at size exactly 160000) overshoots it. -/
theorem C1_cap_exceeded :
    (processAudio ⟨VLC_CODEC_FL32, 1⟩ ⟨200000, List.replicate 200000 0⟩ []).2.length
      = 200000 ∧
    BUFFER_CAP <
      (processAudio ⟨VLC_CODEC_FL32, 1⟩ ⟨200000, List.replicate 200000 0⟩ []).2.length := by
  have h : (processAudio ⟨VLC_CODEC_FL32, 1⟩ ⟨200000, List.replicate 200000 0⟩ []).2
      = [] ++ monoSamples 1 ⟨200000, List.replicate 200000 0⟩ :=
    processAudio_append_under_cap ⟨VLC_CODEC_FL32, 1⟩ ⟨200000, List.replicate 200000 0⟩ []
      rfl (show (1 : Nat) ≠ 0 by norm_num) (show (200000 : Nat) ≠ 0 by norm_num)
      (show ¬ BUFFER_CAP < ([] : List Int).length by norm_num [BUFFER_CAP])
  rw [h, List.nil_append, monoSamples_length]
  exact ⟨rfl, by norm_num [BUFFER_CAP]⟩

/-- The transformation the source applies to a drained window between the
drain step and the engine invocation: whisper_full receives samples.data()
directly (line 222), so the window is passed unchanged — the source contains
no resampling step. -/
def workerEngineInput (window : List Int) : List Int := window

/-- Modelled from the spec: the pure nearest-source-sample resample contract
(`resample(input, rate_in, rate_out)`), which the spec says the worker applies
before invoking the engine but which is absent from the source.  Output length
is floor(len * rate_out / rate_in); output index i reads source index
floor(i * rate_in / rate_out) clamped to input bounds. -/
def specResample (input : List Int) (rateIn rateOut : Nat) : List Int :=
  (List.range (input.length * rateOut / rateIn)).map
    (fun i => input.getD (min (i * rateIn / rateOut) (input.length - 1)) 0)

lemma specResample_length (input : List Int) (rateIn rateOut : Nat) :
    (specResample input rateIn rateOut).length = input.length * rateOut / rateIn := by
  simp [specResample]

/-- C2: the worker passes every drained window to the engine unchanged (there
is no resample function in the pipeline); at a 48000-sample window from a
48000 Hz stream the engine therefore receives 48000 samples, while the spec's
resample contract would produce floor(48000 * 16000 / 48000) = 16000. -/
theorem C2_no_resample :
    (∀ window : List Int, workerEngineInput window = window) ∧
    (workerEngineInput (List.replicate 48000 (0 : Int))).length = 48000 ∧
    (specResample (List.replicate 48000 (0 : Int)) 48000 16000).length = 16000 := by
  refine ⟨fun _ => rfl, ?_, ?_⟩
  · rw [show workerEngineInput (List.replicate 48000 (0 : Int))
        = List.replicate 48000 (0 : Int) from rfl]
    rw [List.length_replicate]
  · rw [specResample_length, List.length_replicate]

/-- The shared slot g_state written by the worker and read by the renderer. -/
structure SharedState where
  current_text : String
  last_update : Int
  deriving DecidableEq

/-- The outcome of one whisper_full invocation: the returned status, and for
each segment the text pointer whisper_full_get_segment_text yields (none
models a NULL pointer, which the source skips). -/
structure EngineOutcome where
  status : Int
  segments : List (Option String)
  deriving DecidableEq

/-- The concatenation loop of lines 229-232: segment texts are appended in
order into one string, NULL segment texts skipped. -/
def concatSegments (segs : List (Option String)) : String :=
  segs.foldl (fun acc s => match s with | some t => acc ++ t | none => acc) ""

/-- The success branch of lines 222-239: on engine status 0 the concatenated
text is published to the shared slot together with the current time if and
only if it is non-empty; on non-zero status the slot is untouched. -/
def workerIteration (out : EngineOutcome) (now : Int) (st : SharedState) :
    SharedState :=
  if out.status = 0 then
    let result := concatSegments out.segments
    if result = "" then st else ⟨result, now⟩
  else st

/-- One pass of the WhisperWorker loop body (lines 201-241): drain, and if the
window is non-empty run the engine on it and handle the outcome; if it is
empty only the 100 ms sleep happens.  Returns the new buffer and shared slot. -/
def workerStep (engine : List Int → EngineOutcome) (now : Int) (buf : List Int)
    (st : SharedState) : List Int × SharedState :=
  if (drainWindow buf).1 = [] then ((drainWindow buf).2, st)
  else ((drainWindow buf).2,
    workerIteration (engine (workerEngineInput (drainWindow buf).1)) now st)

/-- C3: when the engine reports a non-zero status for a drained window, the
shared slot is left exactly as it was, the failed window is not retried (it is
gone from the buffer), and the loop proceeds on the remaining samples. -/
theorem C3_engine_failure_skips_publish (engine : List Int → EngineOutcome)
    (now : Int) (buf : List Int) (st : SharedState)
    (hlen : CHUNK_SAMPLES ≤ buf.length)
    (hfail : (engine (workerEngineInput (buf.take CHUNK_SAMPLES))).status ≠ 0) :
    workerStep engine now buf st = (buf.drop CHUNK_SAMPLES, st) := by
  have hwin : (drainWindow buf).1 = buf.take CHUNK_SAMPLES := by
    simp [drainWindow, hlen]
  have hrest : (drainWindow buf).2 = buf.drop CHUNK_SAMPLES := by
    simp [drainWindow, hlen]
  have hne : (drainWindow buf).1 ≠ [] := by
    rw [hwin]
    intro hnil
    have hlen0 := congrArg List.length hnil
    simp only [List.length_take, List.length_nil] at hlen0
    have hchunk : (0 : Nat) < CHUNK_SAMPLES := by norm_num [CHUNK_SAMPLES]
    omega
  unfold workerStep
  rw [if_neg hne, hwin, hrest]
  unfold workerIteration
  rw [if_neg hfail]

/-- Witness for C3: a 48000-sample buffer and an engine stub that always
fails leave the shared slot at its prior value. -/
theorem C3_witness :
    CHUNK_SAMPLES ≤ (List.replicate 48000 (0 : Int)).length ∧
    ((fun _ : List Int => (⟨1, []⟩ : EngineOutcome))
        (workerEngineInput ((List.replicate 48000 (0 : Int)).take CHUNK_SAMPLES))).status ≠ 0 ∧
    workerStep (fun _ => ⟨1, []⟩) 99 (List.replicate 48000 (0 : Int)) ⟨"prior", 7⟩ =
      ((List.replicate 48000 (0 : Int)).drop CHUNK_SAMPLES, ⟨"prior", 7⟩) :=
  have h1 : CHUNK_SAMPLES ≤ (List.replicate 48000 (0 : Int)).length := by
    rw [List.length_replicate]; norm_num [CHUNK_SAMPLES]
  have h2 : ((fun _ : List Int => (⟨1, []⟩ : EngineOutcome))
      (workerEngineInput ((List.replicate 48000 (0 : Int)).take CHUNK_SAMPLES))).status ≠ 0 :=
    show (1 : Int) ≠ 0 by norm_num
  ⟨h1, h2, C3_engine_failure_skips_publish (fun _ => ⟨1, []⟩) 99
    (List.replicate 48000 (0 : Int)) ⟨"prior", 7⟩ h1 h2⟩

/-- C4: on engine status 0 the worker concatenates all segment texts in order;
if the concatenation is non-empty it is published together with the current
time, and if it is empty the shared slot is unchanged. -/
theorem C4_success_publishes_concat (out : EngineOutcome) (now : Int)
    (st : SharedState) (hok : out.status = 0) :
    (concatSegments out.segments = "" → workerIteration out now st = st) ∧
    (concatSegments out.segments ≠ "" →
      workerIteration out now st = ⟨concatSegments out.segments, now⟩) := by
  constructor
  · intro hempty
    simp [workerIteration, hok, hempty]
  · intro hne
    simp [workerIteration, hok, hne]

/-- Witness for C4: segments "Hola " and "mundo" publish "Hola mundo" with the
current time, replacing the prior slot value. -/
theorem C4_witness :
    (⟨0, [some "Hola ", some "mundo"]⟩ : EngineOutcome).status = 0 ∧
    concatSegments [some "Hola ", some "mundo"] = "Hola mundo" ∧
    workerIteration ⟨0, [some "Hola ", some "mundo"]⟩ 42 ⟨"old", 7⟩ =
      ⟨"Hola mundo", 42⟩ :=
  have hcat : concatSegments [some "Hola ", some "mundo"] = "Hola mundo" := rfl
  have h := (C4_success_publishes_concat ⟨0, [some "Hola ", some "mundo"]⟩ 42
    ⟨"old", 7⟩ rfl).2 (by rw [hcat]; decide)
  ⟨rfl, hcat, by rw [h, hcat]⟩

/-- The display gate at line 272 of FilterRender: with now = mdate(), the
function returns NULL (none) when the shared text is empty, or last_update is
0, or now - last_update exceeds 3 * CLOCK_FREQ; otherwise it renders the
current text. -/
def shouldDisplay (text : String) (last now : Int) : Option String :=
  if text = "" ∨ last = 0 ∨ 3 * CLOCK_FREQ < now - last then none else some text

/-- C5: the gate yields not-visible exactly when the text is empty, the
timestamp is 0, or now - timestamp exceeds 3 s; for non-empty text with a
non-zero timestamp and now - timestamp in [0, 3 s] it yields the current
text. -/
theorem C5_display_gate (text : String) (last now : Int) :
    (shouldDisplay text last now = none ↔
      (text = "" ∨ last = 0 ∨ 3 * CLOCK_FREQ < now - last)) ∧
    (text ≠ "" → last ≠ 0 → 0 ≤ now - last → now - last ≤ 3 * CLOCK_FREQ →
      shouldDisplay text last now = some text) := by
  constructor
  · unfold shouldDisplay
    split
    · simp_all
    · simp_all
  · intro h1 h2 _ h4
    unfold shouldDisplay
    rw [if_neg]
    push_neg
    exact ⟨h1, h2, by omega⟩

/-- Witness for C5: text published 1 µs ago is visible; 4 s ago is stale. -/
theorem C5_witness :
    ("hola" ≠ "" ∧ (5 : Int) ≠ 0 ∧ (0 : Int) ≤ 6 - 5 ∧ (6 : Int) - 5 ≤ 3 * CLOCK_FREQ ∧
      shouldDisplay "hola" 5 6 = some "hola") ∧
    (shouldDisplay "hola" 5 (5 + 3 * CLOCK_FREQ + 1) = none) :=
  have hfresh := (C5_display_gate "hola" 5 6).2 (by decide) (by decide) (by decide)
    (by norm_num [CLOCK_FREQ])
  have hstale := (C5_display_gate "hola" 5 (5 + 3 * CLOCK_FREQ + 1)).1.mpr
    (Or.inr (Or.inr (by omega)))
  ⟨⟨by decide, by decide, by decide, by norm_num [CLOCK_FREQ], hfresh⟩, hstale⟩

/-- The observable actions of CloseAudio, lines 149-164, in program order. -/
inductive CloseEvent where
  | setRunningFalse
  | joinThread
  | whisperFree
  | deleteSys
  deriving DecidableEq

/-- CloseAudio, lines 149-164, as the sequence of actions it performs: nothing
when p_sys is NULL; otherwise it clears the running flag, joins the worker
thread when joinable, frees the whisper context when present, and deletes the
sys struct — in that order. -/
def closeAudio (hasSys joinable hasCtx : Bool) : List CloseEvent :=
  if hasSys = false then []
  else
    [CloseEvent.setRunningFalse] ++
    (if joinable then [CloseEvent.joinThread] else []) ++
    (if hasCtx then [CloseEvent.whisperFree] else []) ++
    [CloseEvent.deleteSys]

/-- C8: on close with a joinable worker, the running flag is cleared before
the join, whisper_free (when the context exists) happens strictly after the
join, and on the normal path the full ordered sequence is clear-flag, join,
free-engine, delete-sys: the engine handle is never released before the worker
thread has been joined. -/
theorem C8_close_ordering (hasSys joinable hasCtx : Bool) (hj : joinable = true) :
    (hasSys = true →
      (closeAudio hasSys joinable hasCtx).indexOf CloseEvent.setRunningFalse <
        (closeAudio hasSys joinable hasCtx).indexOf CloseEvent.joinThread ∧
      (CloseEvent.whisperFree ∈ closeAudio hasSys joinable hasCtx →
        (closeAudio hasSys joinable hasCtx).indexOf CloseEvent.joinThread <
          (closeAudio hasSys joinable hasCtx).indexOf CloseEvent.whisperFree)) ∧
    (hasSys = true → hasCtx = true →
      closeAudio hasSys joinable hasCtx =
        [CloseEvent.setRunningFalse, CloseEvent.joinThread,
         CloseEvent.whisperFree, CloseEvent.deleteSys]) := by
  subst hj
  cases hasSys <;> cases hasCtx <;> simp [closeAudio]

/-- Witness for C8 on the normal close path (sys, joinable thread and engine
context all present). -/
theorem C8_witness :
    (closeAudio true true true).indexOf CloseEvent.setRunningFalse <
      (closeAudio true true true).indexOf CloseEvent.joinThread ∧
    (closeAudio true true true).indexOf CloseEvent.joinThread <
      (closeAudio true true true).indexOf CloseEvent.whisperFree ∧
    closeAudio true true true =
      [CloseEvent.setRunningFalse, CloseEvent.joinThread,
       CloseEvent.whisperFree, CloseEvent.deleteSys] :=
  have h := C8_close_ordering true true true rfl
  ⟨(h.1 rfl).1, (h.1 rfl).2 (by decide), h.2 rfl rfl⟩

/-- The language value WhisperWorker writes into whisper_full_params before
every inference call: line 220 assigns the string constant "es". -/
def workerLanguage : String := "es"

/-- The whisper_full_params fields WhisperWorker assigns after taking the
engine defaults (whisper_full_default_params): line 220 sets only language;
in particular translate is never set and stays at the engine default. -/
def workerAssignedParamFields : List String := ["language"]

/-- The configuration options the module registers (vlc_module_begin block,
line 80): only the model path.  There is no language or translate option. -/
def moduleStringOptions : List String := ["whisper-model"]

/-- C9 counterexample: the claim that the configured language is forwarded
verbatim to the engine fails at the concrete configured value "en": the
language passed on every inference call is the hardcoded constant "es",
independent of any configuration. -/
theorem C9_counterexample : workerLanguage ≠ "en" ∧ workerLanguage = "es" :=
  ⟨by decide, rfl⟩

/-- C9 amended: the engine invocation language is the hardcoded constant
"es" and the translate flag is never assigned (it stays at the engine
default); the module's configuration surface has no language or translate
option at all, so no configured value is forwarded. -/
theorem C9_hardcoded_language :
    workerLanguage = "es" ∧
    "translate" ∉ workerAssignedParamFields ∧
    "language" ∉ moduleStringOptions ∧
    "translate" ∉ moduleStringOptions :=
  ⟨rfl, by decide, by decide, by decide⟩

end WhisperSubs
